import Mathlib

/-!
Verification of the Online-Assessment backend (`server.js`).

The file shallowly embeds the exam submission and proctoring evidence
pipeline of `server.js`:

* the answer scorer inside `POST /api/submitTest` (lines 233-284),
* the blob-upload helper `uploadBase64ToCloudinary` (lines 310-323),
* the session route `POST /api/startExam` (lines 326-345),
* the snapshot ingestion route `POST /api/uploadSnapshot` (lines 358-379),
* the chunked video ingestion route `POST /api/uploadVideoChunk`
  (lines 383-430) together with its multer size limit,
* the media query `GET /admin/exam-media/:testId/:email` (lines 553-573).

Modelling conventions:

* JavaScript numbers produced by the scoring arithmetic are modelled by
  `JsNum`: an exact rational together with the special values `NaN` and
  the two infinities, so that the division by zero performed by
  `(correctCount / test.questions.length) * 100` on an empty test is
  visible in the model.
* A JSON field that may be absent (or `undefined`) is an `Option`; for
  string fields the JavaScript falsiness test `!x` also rejects the
  empty string, which the handlers check explicitly.
* The `answers` payload of `submitTest` is modelled as an association
  list from question position to selected option index; `none` for the
  whole field models a falsy `answers` value (absent, `null`, ...),
  and a missing key models `answers[i] === undefined`.
* The document store is modelled as in-memory lists of records inside
  `Store`; `save` is an append.  The external blob store (Cloudinary)
  is an oracle `BlobStore : String → String → Option String` mapping
  payload and folder to either a secure URL or an upload failure;
  successfully stored blobs are also logged in `Store.blobs` so that
  "no blob was uploaded" is expressible.
-/

namespace OnlineAssessment

/-- A JavaScript number as produced by the scoring arithmetic: either an
exact rational or one of the special values `NaN`, `Infinity`,
`-Infinity`. -/
inductive JsNum where
  | nan : JsNum
  | posInf : JsNum
  | negInf : JsNum
  | num : ℚ → JsNum
deriving DecidableEq, Repr

/-- JavaScript division restricted to finite operands: division by zero
yields `NaN` when the numerator is zero and a signed infinity
otherwise. -/
def jsDiv (a b : ℚ) : JsNum :=
  if b = 0 then
    if a = 0 then JsNum.nan
    else if 0 < a then JsNum.posInf
    else JsNum.negInf
  else JsNum.num (a / b)

/-- Multiplication of a JavaScript number by a positive finite constant,
used for the `* 100` step of the score computation. -/
def jsMulPos (x : JsNum) (c : ℚ) : JsNum :=
  match x with
  | JsNum.nan => JsNum.nan
  | JsNum.posInf => JsNum.posInf
  | JsNum.negInf => JsNum.negInf
  | JsNum.num q => JsNum.num (q * c)

/-- A question of a test (`testSchema.questions` entries, lines 74-81 of
`server.js`).  `correctAnswer` is an `Option` so that a document whose
`correctAnswer` field is absent (`undefined` in JavaScript) is
representable; the schema marks the field required, but the scorer
itself never checks this. -/
structure Question where
  question : String
  options : List String
  correctAnswer : Option Int
  explanation : Option String
deriving DecidableEq, Repr

/-- A test document (`testSchema`, lines 68-82 of `server.js`). -/
structure Test where
  title : String
  subject : String
  duration : Option Int
  resultsDeclared : Bool
  questions : List Question
deriving DecidableEq, Repr

/-- The `answers` payload of a submission: an association list from
question position to the selected option index.  A position without an
entry models `answers[i] === undefined`. -/
abbrev Answers := List (Nat × Int)

/-- Lookup of `answers[i]`: `none` models `undefined`. -/
def answerAt (answers : Answers) (i : Nat) : Option Int :=
  answers.lookup i

/-- JavaScript array indexing `options[idx]` where `idx` is a possibly
absent integer: a negative, out-of-bounds or `undefined` index yields
`undefined`, never an error. -/
def jsIndexOpt (options : List String) : Option Int → Option String
  | none => none
  | some i => if i < 0 then none else options[i.toNat]?

/-- One entry of the per-question grading trace built by the
`test.questions.map` callback in `POST /api/submitTest`
(lines 243-256 of `server.js`). -/
structure AnswerTrace where
  question : String
  options : List String
  selectedOption : Option Int
  correctOption : Option Int
  correctOptionText : Option String
  isCorrect : Bool
  explanation : String
deriving DecidableEq, Repr

/-- Grades the question at position `i`: the selected value is
`answers[i]` (or `undefined`), correctness is the strict equality
`selected === q.correctAnswer`, and `correctOptionText` is the total
JavaScript indexing `q.options[q.correctAnswer]`. -/
def gradeQuestion (answers : Answers) (i : Nat) (q : Question) : AnswerTrace :=
  let selected := answerAt answers i
  { question := q.question
    options := q.options
    selectedOption := selected
    correctOption := q.correctAnswer
    correctOptionText := jsIndexOpt q.options q.correctAnswer
    isCorrect := selected == q.correctAnswer
    explanation := q.explanation.getD "" }

/-- The indexed map over the question list performed by
`test.questions.map((q, i) => ...)`. -/
def analyzeFrom (answers : Answers) : Nat → List Question → List AnswerTrace
  | _, [] => []
  | i, q :: qs => gradeQuestion answers i q :: analyzeFrom answers (i + 1) qs

/-- The full grading trace `answerAnalysis` of `POST /api/submitTest`. -/
def answerAnalysis (test : Test) (answers : Answers) : List AnswerTrace :=
  analyzeFrom answers 0 test.questions

/-- The aggregate result computed by the scorer. -/
structure ScoreResult where
  answers : List AnswerTrace
  correctCount : Nat
  wrongCount : Nat
  totalQuestions : Nat
  score : JsNum
deriving DecidableEq, Repr

/-- The pure scoring computation of `POST /api/submitTest`
(lines 242-259 of `server.js`): builds the trace, counts correct
entries, sets `wrongCount = total - correctCount` and
`score = (correctCount / total) * 100` in JavaScript arithmetic. -/
def scoreResult (test : Test) (answers : Answers) : ScoreResult :=
  let analysis := answerAnalysis test answers
  let correctCount := analysis.countP (fun t => t.isCorrect)
  let total := test.questions.length
  { answers := analysis
    correctCount := correctCount
    wrongCount := total - correctCount
    totalQuestions := total
    score := jsMulPos (jsDiv (correctCount : ℚ) (total : ℚ)) 100 }

/-- A stored submission document (`submissionSchema`, lines 85-106). -/
structure SubmissionRec where
  userEmail : String
  userName : String
  testId : String
  score : JsNum
  totalQuestions : Nat
  correctCount : Nat
  wrongCount : Nat
  answers : List AnswerTrace
deriving DecidableEq, Repr

/-- A stored snapshot document (`snapshotSchema`, lines 109-115).  The
`snapshot` field is the Cloudinary URL and may be `null`. -/
structure SnapshotRec where
  testId : String
  userEmail : String
  snapshot : Option String
  timestamp : Nat
deriving DecidableEq, Repr

/-- A stored video document (`videoSchema`, lines 117-125). -/
structure VideoRec where
  testId : String
  userEmail : String
  videoUrl : Option String
  chunkIndex : Option Int
  timestamp : Nat
deriving DecidableEq, Repr

/-- The server state: the relevant document-store collections plus a log
of the blobs successfully stored by the blob store, each as
`(folder, url)`. -/
structure Store where
  tests : List (String × Test)
  submissions : List SubmissionRec
  snapshots : List SnapshotRec
  videos : List VideoRec
  blobs : List (String × String)
deriving DecidableEq, Repr

/-- Responses of the modelled routes.  Error constructors carry the
HTTP status and message of the corresponding `res.status(...).json`
call in `server.js`. -/
inductive Resp where
  | missingFields : Resp
  | testNotFound : Resp
  | payloadTooLarge : Resp
  | serverError : String → Resp
  | submitOk : JsNum → Nat → Nat → Resp
  | snapshotOk : Resp
  | chunkOk : Option String → Option Int → Resp
deriving DecidableEq, Repr

/-- Request body of `POST /api/submitTest`.  An `Option` field set to
`none` models an absent or otherwise falsy value. -/
structure SubmitReq where
  testId : Option String
  answers : Option Answers
  userEmail : Option String
  userName : Option String
deriving DecidableEq, Repr

/-- Handler of `POST /api/submitTest` (lines 233-284 of `server.js`):
reject falsy fields with 400, reject an unknown test with 404,
otherwise score, append a `Submission` record and answer with the
aggregates. -/
def submitTest (st : Store) (req : SubmitReq) : Store × Resp :=
  match req.testId, req.answers, req.userEmail, req.userName with
  | some tid, some answers, some email, some name =>
    if tid = "" ∨ email = "" ∨ name = "" then (st, Resp.missingFields)
    else
      match st.tests.lookup tid with
      | none => (st, Resp.testNotFound)
      | some test =>
        let r := scoreResult test answers
        let sub : SubmissionRec :=
          { userEmail := email
            userName := name
            testId := tid
            score := r.score
            totalQuestions := r.totalQuestions
            correctCount := r.correctCount
            wrongCount := r.wrongCount
            answers := r.answers }
        ({ st with submissions := st.submissions ++ [sub] },
         Resp.submitOk r.score r.correctCount r.wrongCount)
  | _, _, _, _ => (st, Resp.missingFields)

/-- The external blob store: maps a payload and a folder to either a
secure URL or an upload failure (`none`). -/
abbrev BlobStore := String → String → Option String

/-- One call of `cloudinary.uploader.upload` (or `upload_stream`): on
success the blob is stored and the URL returned, on failure the state
is unchanged and the error is propagated as `none`. -/
def cloudinaryUpload (blob : BlobStore) (st : Store) (data folder : String) :
    Store × Option String :=
  match blob data folder with
  | some url => ({ st with blobs := st.blobs ++ [(folder, url)] }, some url)
  | none => (st, none)

/-- Helper `uploadBase64ToCloudinary` (lines 310-323 of `server.js`):
returns `null` when the payload is not a data URL, and swallows any
upload error into `null` as well — the caller cannot distinguish
failure from success except by the `null` result, and the code never
checks it. -/
def uploadBase64ToCloudinary (blob : BlobStore) (st : Store)
    (base64Data folder : String) : Store × Option String :=
  if "data:".data.isPrefixOf base64Data.data then
    cloudinaryUpload blob st base64Data folder
  else (st, none)

/-- Email sanitisation `userEmail.replace(/[@.]/g, "_")`. -/
def safeEmail (email : String) : String :=
  String.mk (email.data.map (fun c => if c = '@' ∨ c = '.' then '_' else c))

/-- Request body of `POST /api/uploadSnapshot`. -/
structure SnapshotReq where
  testId : Option String
  userEmail : Option String
  snapshot : Option String
  timestamp : Nat
deriving DecidableEq, Repr

/-- Handler of `POST /api/uploadSnapshot` (lines 358-379 of
`server.js`): after the falsiness checks it calls
`uploadBase64ToCloudinary` and then unconditionally appends a
`Snapshot` record whose `snapshot` field is whatever the helper
returned — including `null` after a failed upload. -/
def uploadSnapshot (blob : BlobStore) (st : Store) (req : SnapshotReq) :
    Store × Resp :=
  match req.testId, req.userEmail, req.snapshot with
  | some tid, some email, some snapData =>
    if tid = "" ∨ email = "" ∨ snapData = "" then (st, Resp.missingFields)
    else
      let folderPath := "snapshots/" ++ safeEmail email
      let res := uploadBase64ToCloudinary blob st snapData folderPath
      let snap : SnapshotRec :=
        { testId := tid, userEmail := email, snapshot := res.2,
          timestamp := req.timestamp }
      ({ res.1 with snapshots := res.1.snapshots ++ [snap] }, Resp.snapshotOk)
  | _, _, _ => (st, Resp.missingFields)

/-- Request body of `POST /api/startExam`. -/
structure StartExamReq where
  testId : Option String
  userEmail : Option String
  userName : Option String
  identityPhoto : Option String
  timestamp : Nat
deriving DecidableEq, Repr

/-- Handler of `POST /api/startExam` (lines 326-345 of `server.js`).
After the falsiness checks and the identity-photo upload, the handler
executes `new ExamSession({...})` — but no `ExamSession` model is
defined anywhere in `server.js` (nor elsewhere in the repository), so
this line throws `ReferenceError: ExamSession is not defined`, which
the `catch` turns into the 500 response `"Error starting exam"`.  No
session record is ever persisted; there is not even a sessions
collection.  Note the photo upload has already happened, so a
successful upload leaves an orphaned blob. -/
def startExam (blob : BlobStore) (st : Store) (req : StartExamReq) :
    Store × Resp :=
  match req.testId, req.userEmail, req.userName, req.identityPhoto with
  | some tid, some email, some name, some photo =>
    if tid = "" ∨ email = "" ∨ name = "" ∨ photo = "" then (st, Resp.missingFields)
    else
      let res := uploadBase64ToCloudinary blob st photo "identity"
      (res.1, Resp.serverError "Error starting exam")
  | _, _, _, _ => (st, Resp.missingFields)

/-- The multer memory-storage file size limit of the video chunk route:
`10 * 1024 * 1024` bytes (line 383 of `server.js`). -/
def fileSizeLimit : Nat := 10 * 1024 * 1024

/-- Request of `POST /api/uploadVideoChunk`: the multipart file is
`(size, payload)` when present, plus the body fields. -/
structure VideoChunkReq where
  file : Option (Nat × String)
  testId : Option String
  userEmail : Option String
  chunkIndex : Option Int
  timestamp : Option Nat
deriving DecidableEq, Repr

/-- Handler of `POST /api/uploadVideoChunk` (lines 383-430 of
`server.js`).  Multer parses the multipart file before the handler
runs and aborts the request with a `LIMIT_FILE_SIZE` error when the
file exceeds `fileSizeLimit`; the handler then never runs, so nothing
is uploaded and nothing is persisted.  Otherwise the handler checks
the fields, streams the chunk to the blob store, and appends a `Video`
record on success; an upload failure is caught and answered with 500
and no record. -/
def uploadVideoChunk (blob : BlobStore) (now : Nat) (st : Store)
    (req : VideoChunkReq) : Store × Resp :=
  match req.file with
  | some fileData =>
    if fileSizeLimit < fileData.1 then (st, Resp.payloadTooLarge)
    else
      match req.testId, req.userEmail with
      | some tid, some email =>
        if tid = "" ∨ email = "" then (st, Resp.missingFields)
        else
          let folderPath := "uploads/" ++ safeEmail email ++ "_videos"
          let res := cloudinaryUpload blob st fileData.2 folderPath
          match res.2 with
          | none => (res.1, Resp.serverError "Chunk upload failed")
          | some url =>
            let vid : VideoRec :=
              { testId := tid, userEmail := email, videoUrl := some url,
                chunkIndex := req.chunkIndex,
                timestamp := req.timestamp.getD now }
            ({ res.1 with videos := res.1.videos ++ [vid] },
             Resp.chunkOk (some url) req.chunkIndex)
      | _, _ => (st, Resp.missingFields)
  | none => (st, Resp.missingFields)

/-- Filter predicate of the snapshot query
`Snapshot.find({ testId, userEmail })`. -/
def snapMatches (tid email : String) (s : SnapshotRec) : Bool :=
  s.testId == tid && s.userEmail == email

/-- Filter predicate of the video query
`Video.find({ testId, userEmail })`. -/
def vidMatches (tid email : String) (v : VideoRec) : Bool :=
  v.testId == tid && v.userEmail == email

/-- Ascending-timestamp order on snapshot records, the
`.sort({ timestamp: 1 })` of the media query. -/
def snapLe (a b : SnapshotRec) : Prop := a.timestamp ≤ b.timestamp

/-- Ascending-timestamp order on video records. -/
def vidLe (a b : VideoRec) : Prop := a.timestamp ≤ b.timestamp

instance : DecidableRel snapLe := fun a b => Nat.decLe a.timestamp b.timestamp

instance : DecidableRel vidLe := fun a b => Nat.decLe a.timestamp b.timestamp

instance : IsTotal SnapshotRec snapLe := ⟨fun a b => Nat.le_total a.timestamp b.timestamp⟩

instance : IsTrans SnapshotRec snapLe := ⟨fun _ _ _ h1 h2 => Nat.le_trans h1 h2⟩

instance : IsTotal VideoRec vidLe := ⟨fun a b => Nat.le_total a.timestamp b.timestamp⟩

instance : IsTrans VideoRec vidLe := ⟨fun _ _ _ h1 h2 => Nat.le_trans h1 h2⟩

/-- The snapshot documents returned by the media query: all snapshots of
the `(testId, userEmail)` pair, sorted ascending by timestamp. -/
def examSnapshots (st : Store) (tid email : String) : List SnapshotRec :=
  (st.snapshots.filter (snapMatches tid email)).insertionSort snapLe

/-- The video documents selected by the media query, sorted ascending by
timestamp. -/
def examVideos (st : Store) (tid email : String) : List VideoRec :=
  (st.videos.filter (vidMatches tid email)).insertionSort vidLe

/-- Handler of `GET /admin/exam-media/:testId/:email` (lines 553-573 of
`server.js`): returns the sorted snapshots and the sorted video URLs
(`videos.map(v => v.videoUrl)`). -/
def getExamMedia (st : Store) (tid email : String) :
    List SnapshotRec × List (Option String) :=
  (examSnapshots st tid email, (examVideos st tid email).map (fun v => v.videoUrl))

/-! ### Example fixtures used by witnesses and counterexamples -/

/-- The empty server state. -/
def emptyStore : Store :=
  { tests := [], submissions := [], snapshots := [], videos := [], blobs := [] }

/-- A blob store that fails every upload. -/
def failingBlob : BlobStore := fun _ _ => none

/-- A blob store that accepts every upload. -/
def okBlob : BlobStore := fun d f => some (f ++ "/" ++ d)

/-! ### Helper lemmas -/

/-- The grading trace has one entry per question. -/
theorem analyzeFrom_length (answers : Answers) (i : Nat) (qs : List Question) :
    (analyzeFrom answers i qs).length = qs.length := by
  induction qs generalizing i with
  | nil => rfl
  | cons q qs ih => simp [analyzeFrom, ih]

/-- Entry `j` of the grading trace is the grade of question `j`, at
absolute position `i + j`. -/
theorem analyzeFrom_getElem? (answers : Answers) (i j : Nat) (qs : List Question) :
    (analyzeFrom answers i qs)[j]? = (qs[j]?).map (gradeQuestion answers (i + j)) := by
  induction qs generalizing i j with
  | nil => simp [analyzeFrom]
  | cons q qs ih =>
    cases j with
    | zero => simp [analyzeFrom]
    | succ j =>
      simp only [analyzeFrom, List.getElem?_cons_succ]
      rw [show i + (j + 1) = i + 1 + j from by omega]
      exact ih (i + 1) j

/-- When the blob upload fails, `uploadBase64ToCloudinary` leaves the
state unchanged and returns `null`. -/
theorem uploadBase64_fail (blob : BlobStore) (st : Store) (d f : String)
    (h : blob d f = none) : uploadBase64ToCloudinary blob st d f = (st, none) := by
  unfold uploadBase64ToCloudinary cloudinaryUpload
  split
  · simp [h]
  · rfl

/-- An upload through `uploadBase64ToCloudinary` can only extend the blob
log; every document-store collection is untouched. -/
theorem uploadBase64_preserves_collections (blob : BlobStore) (st : Store)
    (d f : String) :
    ((uploadBase64ToCloudinary blob st d f).1).tests = st.tests
  ∧ ((uploadBase64ToCloudinary blob st d f).1).submissions = st.submissions
  ∧ ((uploadBase64ToCloudinary blob st d f).1).snapshots = st.snapshots
  ∧ ((uploadBase64ToCloudinary blob st d f).1).videos = st.videos := by
  unfold uploadBase64ToCloudinary cloudinaryUpload
  split
  · cases hb : blob d f <;> simp
  · simp

/-! ### C4 -/

/-- Claim C4: for every test with `N ≥ 1` questions and every answers
mapping, the scoring result satisfies
`correctCount + wrongCount = N`, `totalQuestions = N` and
`score = 100 * correctCount / N` (exact rational arithmetic). -/
theorem scoreResult_invariants (test : Test) (answers : Answers)
    (h : 1 ≤ test.questions.length) :
    (scoreResult test answers).correctCount + (scoreResult test answers).wrongCount
        = test.questions.length
  ∧ (scoreResult test answers).totalQuestions = test.questions.length
  ∧ (scoreResult test answers).score
      = JsNum.num (100 * ((scoreResult test answers).correctCount : ℚ)
          / (test.questions.length : ℚ)) := by
  have hlen : (answerAnalysis test answers).length = test.questions.length :=
    analyzeFrom_length answers 0 test.questions
  have hle : (answerAnalysis test answers).countP (fun t => t.isCorrect)
      ≤ test.questions.length := by
    calc (answerAnalysis test answers).countP (fun t => t.isCorrect)
        ≤ (answerAnalysis test answers).length := List.countP_le_length _
      _ = test.questions.length := hlen
  have hN : ((test.questions.length : ℚ)) ≠ 0 := by
    have hne : test.questions.length ≠ 0 := by omega
    exact_mod_cast hne
  refine ⟨?_, rfl, ?_⟩
  · simp only [scoreResult]
    omega
  · simp only [scoreResult, jsDiv, jsMulPos, if_neg hN]
    congr 1
    field_simp
    ring

/-- A concrete question used by the C4 witness. -/
def c4Question : Question :=
  { question := "q", options := ["a", "b"], correctAnswer := some 0, explanation := none }

/-- A concrete one-question test used by the C4 witness. -/
def c4Test : Test :=
  { title := "t", subject := "s", duration := none, resultsDeclared := false,
    questions := [c4Question] }

/-- Witness for C4 at a concrete one-question test. -/
theorem scoreResult_invariants_witness :
    (scoreResult c4Test [(0, 0)]).correctCount
        + (scoreResult c4Test [(0, 0)]).wrongCount = c4Test.questions.length
  ∧ (scoreResult c4Test [(0, 0)]).totalQuestions = c4Test.questions.length
  ∧ (scoreResult c4Test [(0, 0)]).score
      = JsNum.num (100 * ((scoreResult c4Test [(0, 0)]).correctCount : ℚ)
          / (c4Test.questions.length : ℚ)) :=
  scoreResult_invariants c4Test [(0, 0)] (by decide)

/-! ### C5 -/

/-- A question whose `correctAnswer` field is absent, used to refute the
universally quantified form of C5. -/
def c5Question : Question :=
  { question := "q", options := ["a", "b"], correctAnswer := none, explanation := none }

/-- A one-question test whose only question has no `correctAnswer`. -/
def c5Test : Test :=
  { title := "t", subject := "s", duration := none, resultsDeclared := false,
    questions := [c5Question] }

/-- Counterexample to C5 as stated: with an empty answers mapping the
answer at position 0 is missing, yet because the question's
`correctAnswer` is itself absent the strict equality
`undefined === undefined` holds and the entry is graded CORRECT, not
wrong. -/
theorem missing_answer_absent_correct_graded_correct_cex :
    answerAt [] 0 = none
  ∧ c5Question.correctAnswer = none
  ∧ ((answerAnalysis c5Test [])[0]?).map (fun t => t.isCorrect) = some true := by
  refine ⟨rfl, rfl, ?_⟩
  decide

/-- Claim C5 amended: a question position at which the answers mapping
has no entry is graded wrong for every PRESENT value of the question's
`correctAnswer` field (any integer, in bounds or not); when
`correctAnswer` is itself absent, the comparison
`undefined === undefined` grades the missing answer as correct
instead. -/
theorem missing_answer_graded_wrong_when_correct_present
    (test : Test) (answers : Answers) (i : Nat) (q : Question)
    (hq : test.questions[i]? = some q)
    (hmiss : answerAt answers i = none)
    (hca : q.correctAnswer.isSome) :
    ((answerAnalysis test answers)[i]?).map (fun t => t.isCorrect) = some false := by
  obtain ⟨c, hc⟩ := Option.isSome_iff_exists.mp hca
  have h := analyzeFrom_getElem? answers 0 i test.questions
  rw [Nat.zero_add] at h
  rw [answerAnalysis, h, hq]
  simp [gradeQuestion, hmiss, hc]

/-- Witness for the amended C5: a one-question test with a numeric
`correctAnswer` and an empty answers mapping grades position 0
wrong. -/
theorem missing_answer_graded_wrong_witness :
    ((answerAnalysis c4Test [])[0]?).map (fun t => t.isCorrect) = some false :=
  missing_answer_graded_wrong_when_correct_present c4Test [] 0 c4Question
    rfl rfl rfl

/-! ### C10 -/

/-- Claim C10: scoring is total even when a question's `correctAnswer`
index lies outside the bounds of its options list (negative,
too large, or absent): the trace is complete, with one entry per
question, and the affected entry's `correctOptionText` is simply
absent. -/
theorem scorer_total_out_of_bounds_correctAnswer
    (test : Test) (answers : Answers) (i : Nat) (q : Question)
    (hq : test.questions[i]? = some q)
    (hoob : q.correctAnswer = none
      ∨ ∃ c : Int, q.correctAnswer = some c
          ∧ (c < 0 ∨ (q.options.length : Int) ≤ c)) :
    (answerAnalysis test answers).length = test.questions.length
  ∧ ((answerAnalysis test answers)[i]?).map (fun t => t.correctOptionText)
      = some none := by
  constructor
  · exact analyzeFrom_length answers 0 test.questions
  · have h := analyzeFrom_getElem? answers 0 i test.questions
    rw [Nat.zero_add] at h
    rw [answerAnalysis, h, hq]
    have hidx : jsIndexOpt q.options q.correctAnswer = none := by
      rcases hoob with hnone | ⟨c, hc, hcb⟩
      · rw [hnone]; rfl
      · rw [hc]
        simp only [jsIndexOpt]
        rcases hcb with hneg | hbig
        · rw [if_pos hneg]
        · rw [if_neg (by omega)]
          exact List.getElem?_eq_none (by omega)
    simp [gradeQuestion, hidx]

/-- A question whose `correctAnswer` points past the end of its options
list, used by the C10 witness. -/
def c10Question : Question :=
  { question := "q", options := ["a"], correctAnswer := some 5, explanation := none }

/-- A one-question test with an out-of-bounds `correctAnswer`. -/
def c10Test : Test :=
  { title := "t", subject := "s", duration := none, resultsDeclared := false,
    questions := [c10Question] }

/-- Witness for C10 at a concrete out-of-bounds test. -/
theorem scorer_total_out_of_bounds_witness :
    (answerAnalysis c10Test [(0, 0)]).length = c10Test.questions.length
  ∧ ((answerAnalysis c10Test [(0, 0)])[0]?).map (fun t => t.correctOptionText)
      = some none :=
  scorer_total_out_of_bounds_correctAnswer c10Test [(0, 0)] 0 c10Question rfl
    (Or.inr ⟨5, rfl, Or.inr (by decide)⟩)

/-! ### C3 -/

/-- A test with zero questions. -/
def c3Test : Test :=
  { title := "z", subject := "s", duration := none, resultsDeclared := false,
    questions := [] }

/-- A store holding only the zero-question test under id `t0`. -/
def c3Store : Store := { emptyStore with tests := [("t0", c3Test)] }

/-- A well-formed submission request against the zero-question test. -/
def c3Req : SubmitReq :=
  { testId := some "t0", answers := some [(0, 0)], userEmail := some "e@x.com",
    userName := some "E" }

/-- Counterexample to C3 as stated: submitting against a zero-question
test does NOT fail with an `InvalidTest` error — the handler computes
`(0 / 0) * 100 = NaN`, reports success carrying that `NaN` score, and
appends a `Submission` record. -/
theorem submitTest_zero_questions_cex :
    (submitTest c3Store c3Req).2 = Resp.submitOk JsNum.nan 0 0
  ∧ (submitTest c3Store c3Req).1.submissions ≠ c3Store.submissions := by
  constructor
  · decide
  · decide

/-- Claim C3 amended: scoring a zero-question test raises no
`InvalidTest` error; the handler computes `score = NaN` (JavaScript
`0 / 0`), answers with success, and hands the document store a
`Submission` record whose `score` field is `NaN`. -/
theorem submitTest_zero_questions_nan_success
    (st : Store) (tid email name : String) (answers : Answers) (test : Test)
    (htid : tid ≠ "") (hemail : email ≠ "") (hname : name ≠ "")
    (hfind : st.tests.lookup tid = some test)
    (hzero : test.questions = []) :
    submitTest st ⟨some tid, some answers, some email, some name⟩
      = ({ st with submissions := st.submissions ++
            [{ userEmail := email, userName := name, testId := tid,
               score := JsNum.nan, totalQuestions := 0, correctCount := 0,
               wrongCount := 0, answers := [] }] },
         Resp.submitOk JsNum.nan 0 0) := by
  have hscore : scoreResult test answers =
      { answers := [], correctCount := 0, wrongCount := 0, totalQuestions := 0,
        score := JsNum.nan } := by
    simp [scoreResult, answerAnalysis, hzero, analyzeFrom, jsDiv, jsMulPos]
  simp [submitTest, htid, hemail, hname, hfind, hscore]

/-- Witness for the amended C3 at the concrete zero-question store. -/
theorem submitTest_zero_questions_nan_success_witness :
    submitTest c3Store c3Req
      = ({ c3Store with submissions := c3Store.submissions ++
            [{ userEmail := "e@x.com", userName := "E", testId := "t0",
               score := JsNum.nan, totalQuestions := 0, correctCount := 0,
               wrongCount := 0, answers := [] }] },
         Resp.submitOk JsNum.nan 0 0) :=
  submitTest_zero_questions_nan_success c3Store "t0" "e@x.com" "E" [(0, 0)] c3Test
    (by decide) (by decide) (by decide) rfl rfl

/-! ### C7 -/

/-- Claim C7: a scoring request whose test id is unknown fails with the
404 `Test not found` response and leaves the state unchanged; and a
falsy `answers` value (absent or `null`, which is not a mapping of the
expected shape) is rejected with the 400 `Missing fields` response
rather than graded. -/
theorem submitTest_notFound_and_invalid_payload :
    (∀ (st : Store) (tid email name : String) (answers : Answers),
        tid ≠ "" → email ≠ "" → name ≠ "" → st.tests.lookup tid = none →
        submitTest st ⟨some tid, some answers, some email, some name⟩
          = (st, Resp.testNotFound))
  ∧ (∀ (st : Store) (tid email name : String),
        submitTest st ⟨some tid, none, some email, some name⟩
          = (st, Resp.missingFields)) := by
  constructor
  · intro st tid email name answers htid hemail hname hfind
    simp [submitTest, htid, hemail, hname, hfind]
  · intro st tid email name
    rfl

/-- Witness for C7: an unknown test id yields 404, and a `null` answers
value yields 400, both at concrete inputs. -/
theorem submitTest_notFound_and_invalid_payload_witness :
    submitTest emptyStore ⟨some "t9", some [], some "e", some "n"⟩
      = (emptyStore, Resp.testNotFound)
  ∧ submitTest emptyStore ⟨some "t9", none, some "e", some "n"⟩
      = (emptyStore, Resp.missingFields) :=
  ⟨submitTest_notFound_and_invalid_payload.1 emptyStore "t9" "e" "n" []
      (by decide) (by decide) (by decide) rfl,
   submitTest_notFound_and_invalid_payload.2 emptyStore "t9" "e" "n"⟩

/-! ### C9 -/

/-- Claim C9: scoring is deterministic and side-effect free — two
evaluations of `scoreResult` on identical inputs are identical (the
scorer is a pure function of the test and the answers), and the
`submitTest` handler never modifies the stored tests, whatever the
request. -/
theorem scoring_deterministic_and_pure (st : Store) (req : SubmitReq)
    (test : Test) (answers : Answers) :
    scoreResult test answers = scoreResult test answers
  ∧ (submitTest st req).1.tests = st.tests := by
  refine ⟨rfl, ?_⟩
  unfold submitTest
  split
  · split
    · rfl
    · split
      · rfl
      · rfl
  · rfl

/-! ### C1 -/

/-- A well-formed snapshot ingestion request used by the C1
counterexample and witness. -/
def c1Req : SnapshotReq :=
  { testId := some "t1", userEmail := some "s@x.com",
    snapshot := some "data:image/png;base64,AAAA", timestamp := 5 }

/-- Counterexample to C1 as stated: with a blob store that fails the
upload, the snapshot ingestion call still persists a metadata record
and reports success, so the media query for the pair returns one more
record than it returned before the call. -/
theorem uploadSnapshot_upload_failure_adds_record_cex :
    (getExamMedia (uploadSnapshot failingBlob emptyStore c1Req).1 "t1" "s@x.com").1
      ≠ (getExamMedia emptyStore "t1" "s@x.com").1
  ∧ (uploadSnapshot failingBlob emptyStore c1Req).2 = Resp.snapshotOk := by
  constructor
  · decide
  · decide

/-- Claim C1 amended: when the blob upload fails, the call neither fails
nor skips persistence — `uploadBase64ToCloudinary` swallows the error
into a `null` URL, and the handler appends a `Snapshot` record whose
`snapshot` field is `null` and reports success; the state changes
exactly by that one record (in particular no blob is stored). -/
theorem uploadSnapshot_upload_failure_persists_null_record
    (blob : BlobStore) (st : Store) (tid email snapData : String) (ts : Nat)
    (htid : tid ≠ "") (hemail : email ≠ "") (hsnap : snapData ≠ "")
    (hfail : blob snapData ("snapshots/" ++ safeEmail email) = none) :
    uploadSnapshot blob st ⟨some tid, some email, some snapData, ts⟩
      = ({ st with snapshots := st.snapshots ++
            [{ testId := tid, userEmail := email, snapshot := none,
               timestamp := ts }] }, Resp.snapshotOk) := by
  have h := uploadBase64_fail blob st snapData ("snapshots/" ++ safeEmail email) hfail
  simp [uploadSnapshot, htid, hemail, hsnap, h]

/-- Witness for the amended C1: the concrete failing-upload call appends
exactly the null-URL record. -/
theorem uploadSnapshot_upload_failure_persists_null_record_witness :
    uploadSnapshot failingBlob emptyStore ⟨some "t1", some "s@x.com",
        some "data:image/png;base64,AAAA", 5⟩
      = ({ emptyStore with snapshots := emptyStore.snapshots ++
            [{ testId := "t1", userEmail := "s@x.com", snapshot := none,
               timestamp := 5 }] }, Resp.snapshotOk) :=
  uploadSnapshot_upload_failure_persists_null_record failingBlob emptyStore
    "t1" "s@x.com" "data:image/png;base64,AAAA" 5
    (by decide) (by decide) (by decide) rfl

/-! ### C2 -/

/-- Claim C2 examined (code bug): every well-formed `startExam` call
fails with the 500 response `Error starting exam`, because the handler
executes `new ExamSession({...})` while no `ExamSession` model is
defined anywhere in the repository — a `ReferenceError` thrown after
the identity-photo upload.  No session record is persisted (there is
no session collection at all), every document-store collection is
unchanged, and no session identifier is ever returned. -/
theorem startExam_always_fails_no_session
    (blob : BlobStore) (st : Store) (tid email name photo : String) (ts : Nat)
    (htid : tid ≠ "") (hemail : email ≠ "") (hname : name ≠ "")
    (hphoto : photo ≠ "") :
    (startExam blob st ⟨some tid, some email, some name, some photo, ts⟩).2
        = Resp.serverError "Error starting exam"
  ∧ (startExam blob st ⟨some tid, some email, some name, some photo, ts⟩).1.tests
        = st.tests
  ∧ (startExam blob st ⟨some tid, some email, some name, some photo, ts⟩).1.submissions
        = st.submissions
  ∧ (startExam blob st ⟨some tid, some email, some name, some photo, ts⟩).1.snapshots
        = st.snapshots
  ∧ (startExam blob st ⟨some tid, some email, some name, some photo, ts⟩).1.videos
        = st.videos := by
  have hcond : ¬(tid = "" ∨ email = "" ∨ name = "" ∨ photo = "") := by
    rintro (h | h | h | h)
    · exact htid h
    · exact hemail h
    · exact hname h
    · exact hphoto h
  have h := uploadBase64_preserves_collections blob st photo "identity"
  simp only [startExam]
  rw [if_neg hcond]
  exact ⟨rfl, h.1, h.2.1, h.2.2.1, h.2.2.2⟩

/-- Witness for C2 at a concrete valid request, with a blob store that
accepts the photo upload. -/
theorem startExam_always_fails_no_session_witness :
    (startExam okBlob emptyStore ⟨some "t1", some "s@x.com", some "S",
        some "data:photo", 1⟩).2 = Resp.serverError "Error starting exam"
  ∧ (startExam okBlob emptyStore ⟨some "t1", some "s@x.com", some "S",
        some "data:photo", 1⟩).1.tests = emptyStore.tests
  ∧ (startExam okBlob emptyStore ⟨some "t1", some "s@x.com", some "S",
        some "data:photo", 1⟩).1.submissions = emptyStore.submissions
  ∧ (startExam okBlob emptyStore ⟨some "t1", some "s@x.com", some "S",
        some "data:photo", 1⟩).1.snapshots = emptyStore.snapshots
  ∧ (startExam okBlob emptyStore ⟨some "t1", some "s@x.com", some "S",
        some "data:photo", 1⟩).1.videos = emptyStore.videos :=
  startExam_always_fails_no_session okBlob emptyStore "t1" "s@x.com" "S"
    "data:photo" 1 (by decide) (by decide) (by decide) (by decide)

/-! ### C6 -/

/-- Claim C6: a video-chunk request whose multipart file exceeds the
10 MiB multer ceiling is rejected with the `LIMIT_FILE_SIZE`
(payload-too-large) failure before the handler runs: the state —
including the blob log and the `Video` collection — is unchanged. -/
theorem uploadVideoChunk_too_large_rejected
    (blob : BlobStore) (now : Nat) (st : Store) (req : VideoChunkReq)
    (sz : Nat) (content : String)
    (hfile : req.file = some (sz, content)) (hsz : fileSizeLimit < sz) :
    uploadVideoChunk blob now st req = (st, Resp.payloadTooLarge) := by
  simp [uploadVideoChunk, hfile, hsz]

/-- Witness for C6: a chunk of `fileSizeLimit + 1` bytes is rejected
with the state unchanged. -/
theorem uploadVideoChunk_too_large_rejected_witness :
    uploadVideoChunk okBlob 0 emptyStore
        ⟨some (fileSizeLimit + 1, "v"), some "t1", some "s@x.com", some 0, some 1⟩
      = (emptyStore, Resp.payloadTooLarge) :=
  uploadVideoChunk_too_large_rejected okBlob 0 emptyStore
    ⟨some (fileSizeLimit + 1, "v"), some "t1", some "s@x.com", some 0, some 1⟩
    (fileSizeLimit + 1) "v" rfl (by omega)

/-! ### C8 -/

/-- Claim C8: for every store and every pair, the media query returns
exactly the stored snapshot records of the pair sorted ascending by
timestamp (whatever the insertion order), the video URLs in ascending
timestamp order of their records, and two empty sequences — not an
error — when no evidence exists for the pair. -/
theorem getExamMedia_sorted_perm_empty (st : Store) (tid email : String) :
    ((getExamMedia st tid email).1.Sorted snapLe
      ∧ (getExamMedia st tid email).1.Perm
          (st.snapshots.filter (snapMatches tid email)))
  ∧ ((examVideos st tid email).Sorted vidLe
      ∧ (examVideos st tid email).Perm
          (st.videos.filter (vidMatches tid email))
      ∧ (getExamMedia st tid email).2
          = (examVideos st tid email).map (fun v => v.videoUrl))
  ∧ (st.snapshots.filter (snapMatches tid email) = [] →
      st.videos.filter (vidMatches tid email) = [] →
      getExamMedia st tid email = ([], [])) := by
  refine ⟨⟨?_, ?_⟩, ⟨?_, ?_, rfl⟩, ?_⟩
  · exact List.sorted_insertionSort snapLe _
  · exact List.perm_insertionSort snapLe _
  · exact List.sorted_insertionSort vidLe _
  · exact List.perm_insertionSort vidLe _
  · intro h1 h2
    simp [getExamMedia, examSnapshots, examVideos, h1, h2, List.insertionSort]

/-- Witness for C8: the empty store has no evidence for the pair and the
query returns two empty sequences. -/
theorem getExamMedia_sorted_perm_empty_witness :
    getExamMedia emptyStore "t1" "e@x.com" = ([], []) :=
  (getExamMedia_sorted_perm_empty emptyStore "t1" "e@x.com").2.2 rfl rfl

end OnlineAssessment
